import Mathlib

/-!
Shallow embedding of the totals/tax calculation engine (`TotalsNewService`)
of the order-pricing subsystem: line-item totals, shipping-method totals,
gift-card totals and refund amounts, each with a current (per-tax-line) and
a legacy (flat-tax-rate) calculation path.

Monetary amounts and quantities are JavaScript numbers in the source; they
are modelled as rationals (`ℚ`).  `Math.round` is modelled by `jsRound`
(round half towards positive infinity, as JavaScript does).  Fields that can
be `undefined`/`null` in the source are modelled as `Option`.  The two
injected asynchronous capabilities (the tax calculation strategy and the tax
line provider) are passed as explicit function parameters, and the
tax-inclusive-pricing feature flag as an explicit boolean, so every function
here is a pure function of its inputs.
-/

/-- JavaScript `Math.round`: round half towards positive infinity. -/
def jsRound (x : ℚ) : ℚ := ((⌊x + 1/2⌋ : ℤ) : ℚ)

/-- A tax line; the engine only ever reads its `rate` (a 0–100 percentage).
The same shape is used for line-item and shipping-method tax lines. -/
structure TaxLine where
  rate : ℚ
deriving DecidableEq

/-- The discount part of a line allocation (`allocation.discount.unit_amount`). -/
structure DiscountAllocation where
  unit_amount : ℚ
deriving DecidableEq

/-- One entry of the allocation map (`LineAllocationsMap[number]`); the
`discount` member may be absent. -/
structure LineAllocations where
  discount : Option DiscountAllocation
deriving DecidableEq

/-- A line item as read by the engine.  `tax_lines` is `none` when the
collection was never populated (`undefined` in the source). -/
structure LineItem where
  id : String
  unit_price : ℚ
  quantity : ℚ
  includes_tax : Bool
  tax_lines : Option (List TaxLine)
deriving DecidableEq

/-- A shipping method as read by the engine. -/
structure ShippingMethod where
  id : String
  price : ℚ
  includes_tax : Bool
  tax_lines : Option (List TaxLine)
deriving DecidableEq

/-- Discount rule types; `free_shipping` has the special zeroing effect on
shipping totals. -/
inductive DiscountRuleType where
  | fixed
  | percentage
  | free_shipping
deriving DecidableEq

/-- The rule of a discount (`discount.rule.type`). -/
structure DiscountRule where
  type : DiscountRuleType
deriving DecidableEq

/-- A discount as read by the engine. -/
structure Discount where
  rule : DiscountRule
deriving DecidableEq

/-- A region: whether it taxes gift cards, and its flat tax rate. -/
structure Region where
  gift_cards_taxable : Bool
  tax_rate : ℚ
deriving DecidableEq

/-- A gift card; the engine only reads its remaining `balance`. -/
structure GiftCard where
  balance : ℚ
deriving DecidableEq

/-- A gift-card transaction.  `is_taxable` is tri-state in the source
(`true`/`false`/`null`): `none` models the unset (pre-migration) value.
`tax_rate` may likewise be unset (`next.tax_rate || 0` in the source). -/
structure GiftCardTransaction where
  tax_rate : Option ℚ
  is_taxable : Option Bool
  amount : ℚ
deriving DecidableEq

/-- The calculation context threaded through the engine; only the members
the engine reads or rebuilds are modelled: the allocation map (an
association list from line-item id to its allocations) and the shipping
methods. -/
structure TaxCalculationContext where
  allocation_map : List (String × LineAllocations)
  shipping_methods : List ShippingMethod
deriving DecidableEq

/-- Lookup in an association list, modelling JavaScript object indexing
(`m[k]` is `undefined` when the key is absent). -/
def assocLookup {α : Type} (m : List (String × α)) (k : String) : Option α :=
  (m.find? (fun p => p.1 == k)).map Prod.snd

/-- The totals record produced for a line item.  `tax_lines` is an `Option`
because the legacy path copies the item's possibly-undefined collection. -/
structure LineItemTotals where
  unit_price : ℚ
  quantity : ℚ
  subtotal : ℚ
  tax_total : ℚ
  total : ℚ
  original_total : ℚ
  original_tax_total : ℚ
  tax_lines : Option (List TaxLine)
  discount_total : ℚ
deriving DecidableEq

/-- The totals record produced for a shipping method. -/
structure ShippingMethodTotals where
  price : ℚ
  tax_total : ℚ
  total : ℚ
  subtotal : ℚ
  original_total : ℚ
  original_tax_total : ℚ
  tax_lines : Option (List TaxLine)
deriving DecidableEq

/-- The errors the engine raises (both are `MedusaError`s of type
`UNEXPECTED_STATE` in the source, with distinct messages). -/
inductive TotalsError where
  /-- The error "Tax Lines must be joined to calculate taxes". -/
  | taxLinesMustBeJoined
  /-- The error "Cannot compute line item refund amount, tax lines are missing from the line item". -/
  | refundTaxLinesMissing
deriving DecidableEq

/-- The injected tax calculation strategy
(`ITaxCalculationStrategy.calculate(items, taxLines, context)`). -/
abbrev TaxCalculationStrategy :=
  List LineItem → List TaxLine → TaxCalculationContext → ℚ

/-- The result of the tax line provider's `getTaxLinesMap`. -/
structure TaxLinesMaps where
  lineItemsTaxLines : List (String × List TaxLine)
  shippingMethodsTaxLines : List (String × List TaxLine)

/-- The injected tax line provider (`TaxProviderService.getTaxLinesMap`). -/
abbrev TaxLineProvider := List LineItem → TaxCalculationContext → TaxLinesMaps

/-- Modelled from the spec: the pure helper `calculatePriceTaxAmount`
(`PriceTaxAmount(price, taxRate, includesTax) -> amount`) is imported from
the repository's utils and is not part of the excerpted source.  Per the
spec it backs the embedded tax out of a tax-inclusive price by
back-calculation; for a tax-exclusive price it is the tax on the price.
`taxRate` here is the fractional rate (already divided by 100). -/
def calculatePriceTaxAmount (price taxRate : ℚ) (includesTax : Bool) : ℚ :=
  if includesTax then taxRate * price / (1 + taxRate) else price * taxRate

/-- JavaScript truthiness of the optional `taxRate` argument
(`undefined`, `null` and `0` are falsy). -/
def jsTruthy : Option ℚ → Bool
  | none => false
  | some q => decide (q ≠ 0)

/-- Current-path totals for one line item (`getLineItemTotals`).
`taxInclusiveEnabled` is the tax-inclusive-pricing feature flag. -/
def getLineItemTotals (calculate : TaxCalculationStrategy) (taxInclusiveEnabled : Bool)
    (item : LineItem) (includeTax : Bool) (lineItemAllocation : LineAllocations)
    (taxLines : Option (List TaxLine)) (calculationContext : TaxCalculationContext) :
    Except TotalsError LineItemTotals :=
  let subtotal : ℚ :=
    if taxInclusiveEnabled && item.includes_tax then 0
    else item.unit_price * item.quantity
  let discount_total : ℚ :=
    ((lineItemAllocation.discount.map DiscountAllocation.unit_amount).getD 0) * item.quantity
  let tax_lines : List TaxLine := taxLines.getD (item.tax_lines.getD [])
  if includeTax && tax_lines.isEmpty then
    Except.error TotalsError.taxLinesMustBeJoined
  else if tax_lines.isEmpty then
    Except.ok
      { unit_price := item.unit_price, quantity := item.quantity
        subtotal, discount_total
        tax_total := 0, original_tax_total := 0
        total := subtotal - discount_total
        original_total := subtotal
        tax_lines := some tax_lines }
  else
    let tax_total := calculate [item] tax_lines calculationContext
    let noDiscountContext : TaxCalculationContext :=
      { calculationContext with allocation_map := [] }
    let original_tax_total := calculate [item] tax_lines noDiscountContext
    if taxInclusiveEnabled && item.includes_tax then
      let subtotal2 := subtotal + (item.unit_price * item.quantity - original_tax_total)
      Except.ok
        { unit_price := item.unit_price, quantity := item.quantity
          subtotal := subtotal2, discount_total
          tax_total, original_tax_total
          total := (subtotal - discount_total) + subtotal2 + tax_total
          original_total := subtotal + subtotal2 + original_tax_total
          tax_lines := some tax_lines }
    else
      Except.ok
        { unit_price := item.unit_price, quantity := item.quantity
          subtotal, discount_total
          tax_total, original_tax_total
          total := (subtotal - discount_total) + tax_total
          original_total := subtotal + original_tax_total
          tax_lines := some tax_lines }

/-- Legacy (flat-rate) totals for one line item (`getLineItemTotalsLegacy`). -/
def getLineItemTotalsLegacy (taxInclusiveEnabled : Bool) (item : LineItem)
    (taxRate : ℚ) (lineItemAllocation : LineAllocations) : LineItemTotals :=
  let subtotal : ℚ :=
    if taxInclusiveEnabled && item.includes_tax then 0
    else item.unit_price * item.quantity
  let discount_total : ℚ :=
    ((lineItemAllocation.discount.map DiscountAllocation.unit_amount).getD 0) * item.quantity
  let rate := taxRate / 100
  let includesTax := taxInclusiveEnabled && item.includes_tax
  let taxIncludedInPrice : ℚ :=
    if !item.includes_tax then 0
    else jsRound (calculatePriceTaxAmount item.unit_price rate includesTax)
  let subtotal2 := (item.unit_price - taxIncludedInPrice) * item.quantity
  let original_tax_total := subtotal2 * rate
  let tax_total := (subtotal2 - discount_total) * rate
  { unit_price := item.unit_price, quantity := item.quantity
    subtotal := subtotal2, discount_total
    tax_total, original_tax_total
    total := subtotal2 + tax_total
    original_total := subtotal + original_tax_total
    tax_lines := item.tax_lines }

/-- Legacy (flat-rate) refund amount for one line item
(`getLineItemRefundLegacy`). -/
def getLineItemRefundLegacy (taxInclusiveEnabled : Bool) (lineItem : LineItem)
    (calculationContext : TaxCalculationContext) (taxRate : ℚ) : ℚ :=
  let includesTax := taxInclusiveEnabled && lineItem.includes_tax
  let taxAmountIncludedInPrice : ℚ :=
    if !includesTax then 0
    else jsRound (calculatePriceTaxAmount lineItem.unit_price (taxRate / 100) includesTax)
  let discountAmount : ℚ :=
    (((assocLookup calculationContext.allocation_map lineItem.id).bind
        LineAllocations.discount).map DiscountAllocation.unit_amount).getD 0 *
      lineItem.quantity
  let lineSubtotal :=
    (lineItem.unit_price - taxAmountIncludedInPrice) * lineItem.quantity - discountAmount
  jsRound (lineSubtotal * (1 + taxRate / 100))

/-- Refund amount for one line item (`getLineItemRefund`); dispatches to the
legacy variant whenever a flat `taxRate` is supplied (loose `!= null`). -/
def getLineItemRefund (taxInclusiveEnabled : Bool) (lineItem : LineItem)
    (calculationContext : TaxCalculationContext) (taxRate : Option ℚ) :
    Except TotalsError ℚ :=
  match taxRate with
  | some r =>
    Except.ok (getLineItemRefundLegacy taxInclusiveEnabled lineItem calculationContext r)
  | none =>
    let includesTax := taxInclusiveEnabled && lineItem.includes_tax
    let discountAmount : ℚ :=
      (((assocLookup calculationContext.allocation_map lineItem.id).bind
          LineAllocations.discount).map DiscountAllocation.unit_amount).getD 0 *
        lineItem.quantity
    match lineItem.tax_lines with
    | none => Except.error TotalsError.refundTaxLinesMissing
    | some tax_lines =>
      let totalTaxRate : ℚ := tax_lines.foldl (fun acc next => acc + next.rate / 100) 0
      let taxAmountIncludedInPrice : ℚ :=
        if !includesTax then 0
        else jsRound (calculatePriceTaxAmount lineItem.unit_price totalTaxRate includesTax)
      let lineSubtotal :=
        (lineItem.unit_price - taxAmountIncludedInPrice) * lineItem.quantity - discountAmount
      let taxTotal : ℚ :=
        tax_lines.foldl (fun acc next => acc + jsRound (lineSubtotal * (next.rate / 100))) 0
      Except.ok (lineSubtotal + taxTotal)

/-- Gift-card totals. -/
structure GiftCardTotals where
  total : ℚ
  tax_total : ℚ
deriving DecidableEq

/-- Fold over gift-card transactions (`getGiftCardTransactionsTotals`): per
transaction the tax multiplier is the transaction's own recorded rate unless
`is_taxable` is the unset tri-state value and the region taxes gift cards,
in which case the region's rate is used. -/
def getGiftCardTransactionsTotals (giftCardTransactions : List GiftCardTransaction)
    (region : Region) : GiftCardTotals :=
  giftCardTransactions.foldl
    (fun acc next =>
      let taxMultiplier : ℚ :=
        if next.is_taxable = none && region.gift_cards_taxable then
          region.tax_rate / 100
        else
          (next.tax_rate.getD 0) / 100
      { total := acc.total + next.amount
        tax_total := acc.tax_total + next.amount * taxMultiplier })
    { total := 0, tax_total := 0 }

/-- Gift-card totals (`getGiftCardTotals`): delegate to the transaction fold
when a transaction history is supplied (any history, even empty, since an
empty array is truthy in JavaScript); otherwise cap the summed balances at
the gift-cardable amount and tax the result if the region taxes gift cards. -/
def getGiftCardTotals (giftCardableAmount : ℚ)
    (giftCardTransactions : Option (List GiftCardTransaction))
    (region : Region) (giftCards : Option (List GiftCard)) : GiftCardTotals :=
  match giftCardTransactions with
  | some txs => getGiftCardTransactionsTotals txs region
  | none =>
    match giftCards with
    | none => { total := 0, tax_total := 0 }
    | some cards =>
      if cards.isEmpty then { total := 0, tax_total := 0 }
      else
        let giftAmount := cards.foldl (fun acc next => acc + next.balance) 0
        let total := min giftCardableAmount giftAmount
        if region.gift_cards_taxable then
          { total, tax_total := jsRound (total * region.tax_rate / 100) }
        else
          { total, tax_total := 0 }

/-- Current-path totals for one shipping method (`getShippingMethodTotals`). -/
def getShippingMethodTotals (calculate : TaxCalculationStrategy) (taxInclusiveEnabled : Bool)
    (shippingMethod : ShippingMethod) (includeTax : Bool)
    (calculationContext : TaxCalculationContext)
    (taxLines : Option (List TaxLine)) (discounts : Option (List Discount)) :
    Except TotalsError ShippingMethodTotals :=
  let tax_lines : List TaxLine := taxLines.getD (shippingMethod.tax_lines.getD [])
  let calculationContext2 : TaxCalculationContext :=
    { calculationContext with shipping_methods := [shippingMethod] }
  if includeTax && tax_lines.isEmpty then
    Except.error TotalsError.taxLinesMustBeJoined
  else
    let includesTax := taxInclusiveEnabled && shippingMethod.includes_tax
    let original_tax_total := calculate [] tax_lines calculationContext2
    let tax_total := original_tax_total
    let totals : ShippingMethodTotals :=
      if includesTax then
        { price := shippingMethod.price
          original_total := shippingMethod.price
          total := shippingMethod.price
          subtotal := shippingMethod.price - tax_total
          original_tax_total, tax_total
          tax_lines := some tax_lines }
      else
        { price := shippingMethod.price
          original_total := shippingMethod.price + original_tax_total
          total := shippingMethod.price + tax_total
          subtotal := shippingMethod.price
          original_tax_total, tax_total
          tax_lines := some tax_lines }
    let hasFreeShipping :=
      (discounts.getD []).any (fun d => d.rule.type == DiscountRuleType.free_shipping)
    if hasFreeShipping then
      Except.ok { totals with total := 0, subtotal := 0, tax_total := 0 }
    else
      Except.ok totals

/-- Legacy (flat-rate) totals for one shipping method
(`getShippingMethodTotalsLegacy`): the rounded tax is recorded in both tax
fields but never folded into `total`/`original_total`. -/
def getShippingMethodTotalsLegacy (shippingMethod : ShippingMethod) (taxRate : ℚ) :
    ShippingMethodTotals :=
  { price := shippingMethod.price
    original_total := shippingMethod.price
    total := shippingMethod.price
    subtotal := shippingMethod.price
    original_tax_total := jsRound (shippingMethod.price * (taxRate / 100))
    tax_total := jsRound (shippingMethod.price * (taxRate / 100))
    tax_lines := shippingMethod.tax_lines }

/-- Batch totals for line items (`getLineItemsTotals`): fetches (or reuses)
tax lines when no truthy flat rate is supplied and tax is requested, then
dispatches each item to the legacy path when `taxRate` is truthy and to the
current path otherwise.  The per-item options the batch builds do not
include `includeTax`, so the current path is always invoked with
`includeTax` unset (false). -/
def getLineItemsTotals (calculate : TaxCalculationStrategy) (taxInclusiveEnabled : Bool)
    (taxProviderService : TaxLineProvider) (items : List LineItem)
    (includeTax : Bool) (calculationContext : TaxCalculationContext)
    (taxRate : Option ℚ) (useExistingTaxLines : Bool) :
    Except TotalsError (List (String × LineItemTotals)) :=
  let lineItemsTaxLinesMap : List (String × List TaxLine) :=
    if !jsTruthy taxRate && includeTax then
      if useExistingTaxLines then
        items.map (fun item => (item.id, item.tax_lines.getD []))
      else if !items.isEmpty then
        (taxProviderService items calculationContext).lineItemsTaxLines
      else []
    else []
  items.mapM (fun item =>
    let lineItemAllocation :=
      (assocLookup calculationContext.allocation_map item.id).getD { discount := none }
    if jsTruthy taxRate then
      Except.ok (item.id,
        getLineItemTotalsLegacy taxInclusiveEnabled item (taxRate.getD 0) lineItemAllocation)
    else
      (getLineItemTotals calculate taxInclusiveEnabled item false lineItemAllocation
          (assocLookup lineItemsTaxLinesMap item.id) calculationContext).map
        (fun t => (item.id, t)))

/-- One entry of the shipping batch result.  The source's batch loop builds
the per-method options from `includeTax`, `calculationContext`, `taxLines`
and `discounts` only, omitting `taxRate`; when the legacy branch is selected
the legacy method therefore receives `taxRate = undefined` and its two tax
fields evaluate to `NaN` (`price * (undefined / 100)`).  `legacyNaN` records
that outcome explicitly, keeping the fields the legacy path does set
(`price`, `total`, `subtotal` and `original_total` all equal the price, and
`tax_lines` is copied from the method). -/
inductive ShippingBatchEntry where
  | current (totals : ShippingMethodTotals)
  | legacyNaN (price : ℚ) (tax_lines : Option (List TaxLine))
deriving DecidableEq

/-- Batch totals for shipping methods (`getShippingMethodsTotals`): fetches
(or reuses) tax lines when no truthy flat rate is supplied and tax is
requested — note the provider is invoked with an empty item list — then
dispatches each method to the legacy path when `taxRate` is truthy and to
the current path otherwise. -/
def getShippingMethodsTotals (calculate : TaxCalculationStrategy) (taxInclusiveEnabled : Bool)
    (taxProviderService : TaxLineProvider) (shippingMethods : List ShippingMethod)
    (includeTax : Bool) (discounts : Option (List Discount)) (taxRate : Option ℚ)
    (calculationContext : TaxCalculationContext) (useExistingTaxLines : Bool) :
    Except TotalsError (List (String × ShippingBatchEntry)) :=
  let shippingMethodsTaxLinesMap : List (String × List TaxLine) :=
    if !jsTruthy taxRate && includeTax then
      if useExistingTaxLines then
        shippingMethods.map (fun sm => (sm.id, sm.tax_lines.getD []))
      else if !shippingMethods.isEmpty then
        (taxProviderService [] calculationContext).shippingMethodsTaxLines
      else []
    else []
  shippingMethods.mapM (fun sm =>
    if jsTruthy taxRate then
      Except.ok (sm.id, ShippingBatchEntry.legacyNaN sm.price sm.tax_lines)
    else
      (getShippingMethodTotals calculate taxInclusiveEnabled sm includeTax calculationContext
          (assocLookup shippingMethodsTaxLinesMap sm.id) discounts).map
        (fun t => (sm.id, ShippingBatchEntry.current t)))

/-! ## Shared helper lemmas -/

/-- Folding `(· + f ·)` from `a` sums the mapped values. -/
lemma foldl_add_eq {α : Type} (f : α → ℚ) (l : List α) (a : ℚ) :
    l.foldl (fun acc x => acc + f x) a = a + (l.map f).sum := by
  induction l generalizing a with
  | nil => simp
  | cons x xs ih => simp [ih, add_assoc]

/-! ## C1: the round-trip invariant -/

/-- A concrete shipping method used to exhibit the legacy-path failure. -/
def c1CexMethod : ShippingMethod :=
  { id := "sm_1", price := 100, includes_tax := false, tax_lines := none }

/-- C1 counterexample: the claimed round-trip
`original_total == subtotal + original_tax_total` fails on the legacy
shipping path at price 100 and tax rate 10: the record has
`original_total = 100`, `subtotal = 100` and `original_tax_total = 10`,
because the legacy shipping path records the rounded tax without folding it
into `original_total`. -/
theorem c1_round_trip_counterexample :
    ¬ ((getShippingMethodTotalsLegacy c1CexMethod 10).original_total =
        (getShippingMethodTotalsLegacy c1CexMethod 10).subtotal +
          (getShippingMethodTotalsLegacy c1CexMethod 10).original_tax_total) := by
  simp only [getShippingMethodTotalsLegacy, c1CexMethod, jsRound]
  norm_num

/-- C1 (amended): the round-trip `original_total == subtotal +
original_tax_total` holds for every record returned by the current line-item
path; for legacy line-item records whenever the item is not flagged
tax-inclusive; for current-path shipping records whenever no FREE_SHIPPING
discount is supplied; and for legacy shipping records exactly when the
rounded tax `round(price * taxRate/100)` is zero (that path never adds the
tax into `original_total`). -/
theorem c1_round_trip :
    (∀ (calculate : TaxCalculationStrategy) (tie : Bool) (item : LineItem)
        (includeTax : Bool) (alloc : LineAllocations) (tlo : Option (List TaxLine))
        (ctx : TaxCalculationContext) (t : LineItemTotals),
        getLineItemTotals calculate tie item includeTax alloc tlo ctx = Except.ok t →
        t.original_total = t.subtotal + t.original_tax_total) ∧
    (∀ (tie : Bool) (item : LineItem) (taxRate : ℚ) (alloc : LineAllocations),
        item.includes_tax = false →
        (getLineItemTotalsLegacy tie item taxRate alloc).original_total =
          (getLineItemTotalsLegacy tie item taxRate alloc).subtotal +
            (getLineItemTotalsLegacy tie item taxRate alloc).original_tax_total) ∧
    (∀ (calculate : TaxCalculationStrategy) (tie : Bool) (sm : ShippingMethod)
        (includeTax : Bool) (ctx : TaxCalculationContext) (tlo : Option (List TaxLine))
        (discounts : Option (List Discount)) (t : ShippingMethodTotals),
        (discounts.getD []).any (fun d => d.rule.type == DiscountRuleType.free_shipping) = false →
        getShippingMethodTotals calculate tie sm includeTax ctx tlo discounts = Except.ok t →
        t.original_total = t.subtotal + t.original_tax_total) ∧
    (∀ (sm : ShippingMethod) (taxRate : ℚ),
        ((getShippingMethodTotalsLegacy sm taxRate).original_total =
          (getShippingMethodTotalsLegacy sm taxRate).subtotal +
            (getShippingMethodTotalsLegacy sm taxRate).original_tax_total) ↔
          jsRound (sm.price * (taxRate / 100)) = 0) := by
  refine ⟨?_, ?_, ?_, ?_⟩
  · intro calculate tie item includeTax alloc tlo ctx t h
    cases hit : tie && item.includes_tax with
    | false =>
      simp only [getLineItemTotals, hit] at h
      split at h
      · exact Except.noConfusion h
      · split at h
        · cases h
          simp
        · cases h
          simp
    | true =>
      simp only [getLineItemTotals, hit] at h
      split at h
      · exact Except.noConfusion h
      · split at h
        · cases h
          simp
        · cases h
          simp
          try ring
  · intro tie item taxRate alloc h
    simp [getLineItemTotalsLegacy, h]
    try ring
  · intro calculate tie sm includeTax ctx tlo discounts t hfs h
    simp only [getShippingMethodTotals, hfs] at h
    split at h
    · exact Except.noConfusion h
    · cases hit : tie && sm.includes_tax <;> simp only [hit] at h <;>
        · cases h
          simp
          try ring
  · intro sm taxRate
    simp only [getShippingMethodTotalsLegacy]
    constructor
    · intro h
      linarith
    · intro h
      rw [h]
      ring

/-- A deterministic tax calculation strategy used in concrete instances: it
returns 7 when the context carries no allocations and 5 otherwise. -/
def c1wCalc : TaxCalculationStrategy :=
  fun _ _ ctx => if ctx.allocation_map.isEmpty then 7 else 5

/-- A concrete line item with one 10% tax line. -/
def c1wItem : LineItem :=
  { id := "li_1", unit_price := 100, quantity := 2, includes_tax := false
    tax_lines := some [{ rate := 10 }] }

/-- A concrete allocation granting a unit discount of 1. -/
def c1wAlloc : LineAllocations := { discount := some { unit_amount := 1 } }

/-- A concrete calculation context holding the allocation of `c1wItem`. -/
def c1wCtx : TaxCalculationContext :=
  { allocation_map := [("li_1", c1wAlloc)], shipping_methods := [] }

/-- The totals record `getLineItemTotals` produces for `c1wItem` under
`c1wCalc` and `c1wCtx`. -/
def c1wTotals : LineItemTotals :=
  { unit_price := 100, quantity := 2, subtotal := 200, tax_total := 5, total := 203
    original_total := 207, original_tax_total := 7
    tax_lines := some [{ rate := 10 }], discount_total := 2 }

/-- A concrete shipping method with one 10% tax line. -/
def c1wMethod : ShippingMethod :=
  { id := "sm_1", price := 100, includes_tax := false, tax_lines := some [{ rate := 10 }] }

/-- A concrete non-free-shipping discount. -/
def c1wDiscount : Discount := { rule := { type := DiscountRuleType.fixed } }

/-- The totals record `getShippingMethodTotals` produces for `c1wMethod`
under `c1wCalc` and `c1wCtx`. -/
def c1wShipTotals : ShippingMethodTotals :=
  { price := 100, tax_total := 5, total := 105, subtotal := 100
    original_total := 105, original_tax_total := 5, tax_lines := some [{ rate := 10 }] }

/-- Witness for C1 (amended): each conjunct of the round-trip theorem
instantiated at a concrete input with its hypotheses discharged. -/
theorem c1_round_trip_witness :
    (getLineItemTotals c1wCalc false c1wItem true c1wAlloc none c1wCtx = Except.ok c1wTotals ∧
      c1wTotals.original_total = c1wTotals.subtotal + c1wTotals.original_tax_total) ∧
    (c1wItem.includes_tax = false ∧
      (getLineItemTotalsLegacy true c1wItem 10 c1wAlloc).original_total =
        (getLineItemTotalsLegacy true c1wItem 10 c1wAlloc).subtotal +
          (getLineItemTotalsLegacy true c1wItem 10 c1wAlloc).original_tax_total) ∧
    (((some [c1wDiscount]).getD []).any
        (fun d => d.rule.type == DiscountRuleType.free_shipping) = false ∧
      getShippingMethodTotals c1wCalc false c1wMethod true c1wCtx none (some [c1wDiscount]) =
        Except.ok c1wShipTotals ∧
      c1wShipTotals.original_total = c1wShipTotals.subtotal + c1wShipTotals.original_tax_total) ∧
    ((getShippingMethodTotalsLegacy c1wMethod 0).original_total =
      (getShippingMethodTotalsLegacy c1wMethod 0).subtotal +
        (getShippingMethodTotalsLegacy c1wMethod 0).original_tax_total) := by
  have h1 : getLineItemTotals c1wCalc false c1wItem true c1wAlloc none c1wCtx =
      Except.ok c1wTotals := by
    simp only [getLineItemTotals, c1wCalc, c1wItem, c1wAlloc, c1wCtx, c1wTotals]
    norm_num
  have h3 : getShippingMethodTotals c1wCalc false c1wMethod true c1wCtx none
      (some [c1wDiscount]) = Except.ok c1wShipTotals := by
    simp only [getShippingMethodTotals, c1wCalc, c1wMethod, c1wCtx, c1wDiscount, c1wShipTotals]
    norm_num
    decide
  have hfs : ((some [c1wDiscount]).getD []).any
      (fun d => d.rule.type == DiscountRuleType.free_shipping) = false := rfl
  exact ⟨⟨h1, c1_round_trip.1 c1wCalc false c1wItem true c1wAlloc none c1wCtx c1wTotals h1⟩,
    ⟨rfl, c1_round_trip.2.1 true c1wItem 10 c1wAlloc rfl⟩,
    ⟨hfs, h3, c1_round_trip.2.2.1 c1wCalc false c1wMethod true c1wCtx none (some [c1wDiscount])
      c1wShipTotals hfs h3⟩,
    (c1_round_trip.2.2.2 c1wMethod 0).mpr (by simp only [c1wMethod, jsRound]; norm_num)⟩

/-! ## Shared concrete fixtures -/

/-- A deterministic strategy returning 0, for concrete instances. -/
def fixZeroCalc : TaxCalculationStrategy := fun _ _ _ => 0

/-- An empty calculation context, for concrete instances. -/
def fixEmptyCtx : TaxCalculationContext := { allocation_map := [], shipping_methods := [] }

/-! ## C2: missing-tax-lines error -/

/-- C2: with `includeTax = true` and an empty effective tax-line list (the
supplied override, else the entity's own tax lines, else empty), the
current-path line-item and shipping-method computations raise the
missing-tax-lines error and return no totals record. -/
theorem c2_missing_tax_lines :
    (∀ (calculate : TaxCalculationStrategy) (tie : Bool) (item : LineItem)
        (alloc : LineAllocations) (tlo : Option (List TaxLine)) (ctx : TaxCalculationContext),
        tlo.getD (item.tax_lines.getD []) = [] →
        getLineItemTotals calculate tie item true alloc tlo ctx =
          Except.error TotalsError.taxLinesMustBeJoined) ∧
    (∀ (calculate : TaxCalculationStrategy) (tie : Bool) (sm : ShippingMethod)
        (ctx : TaxCalculationContext) (tlo : Option (List TaxLine))
        (discounts : Option (List Discount)),
        tlo.getD (sm.tax_lines.getD []) = [] →
        getShippingMethodTotals calculate tie sm true ctx tlo discounts =
          Except.error TotalsError.taxLinesMustBeJoined) := by
  constructor
  · intro calculate tie item alloc tlo ctx h
    simp [getLineItemTotals, h]
  · intro calculate tie sm ctx tlo discounts h
    simp [getShippingMethodTotals, h]

/-- A concrete line item with an explicitly empty tax-line list. -/
def c2wItem : LineItem :=
  { id := "li_2", unit_price := 100, quantity := 1, includes_tax := false, tax_lines := some [] }

/-- A concrete shipping method with no tax lines attached. -/
def c2wMethod : ShippingMethod :=
  { id := "sm_2", price := 100, includes_tax := false, tax_lines := none }

/-- Witness for C2: both error cases at concrete inputs. -/
theorem c2_missing_tax_lines_witness :
    ((none : Option (List TaxLine)).getD (c2wItem.tax_lines.getD []) = [] ∧
      getLineItemTotals fixZeroCalc false c2wItem true { discount := none } none fixEmptyCtx =
        Except.error TotalsError.taxLinesMustBeJoined) ∧
    ((none : Option (List TaxLine)).getD (c2wMethod.tax_lines.getD []) = [] ∧
      getShippingMethodTotals fixZeroCalc false c2wMethod true fixEmptyCtx none none =
        Except.error TotalsError.taxLinesMustBeJoined) :=
  ⟨⟨rfl, c2_missing_tax_lines.1 fixZeroCalc false c2wItem { discount := none } none
      fixEmptyCtx rfl⟩,
    ⟨rfl, c2_missing_tax_lines.2 fixZeroCalc false c2wMethod fixEmptyCtx none none rfl⟩⟩

/-! ## C3: FREE_SHIPPING zeroes shipping totals -/

/-- C3: whenever some supplied discount has rule type FREE_SHIPPING, any
totals record returned by the current shipping path has `total = 0`,
`subtotal = 0` and `tax_total = 0`, regardless of price, tax lines or the
tax-inclusive flag. -/
theorem c3_free_shipping_zeroes :
    ∀ (calculate : TaxCalculationStrategy) (tie : Bool) (sm : ShippingMethod)
      (includeTax : Bool) (ctx : TaxCalculationContext) (tlo : Option (List TaxLine))
      (discounts : Option (List Discount)) (t : ShippingMethodTotals),
      (∃ d ∈ discounts.getD [], d.rule.type = DiscountRuleType.free_shipping) →
      getShippingMethodTotals calculate tie sm includeTax ctx tlo discounts = Except.ok t →
      t.total = 0 ∧ t.subtotal = 0 ∧ t.tax_total = 0 := by
  intro calculate tie sm includeTax ctx tlo discounts t hex h
  have hany : (discounts.getD []).any
      (fun d => d.rule.type == DiscountRuleType.free_shipping) = true := by
    rw [List.any_eq_true]
    obtain ⟨d, hd, hdt⟩ := hex
    exact ⟨d, hd, by simp [hdt]⟩
  simp only [getShippingMethodTotals, hany] at h
  split at h
  · exact Except.noConfusion h
  · cases h
    simp

/-- A concrete shipping method with one 10% tax line. -/
def c3wMethod : ShippingMethod :=
  { id := "sm_3", price := 100, includes_tax := false, tax_lines := some [{ rate := 10 }] }

/-- A concrete FREE_SHIPPING discount. -/
def c3wDiscount : Discount := { rule := { type := DiscountRuleType.free_shipping } }

/-- The record the current shipping path returns for `c3wMethod` under the
FREE_SHIPPING discount. -/
def c3wTotals : ShippingMethodTotals :=
  { price := 100, tax_total := 0, total := 0, subtotal := 0
    original_total := 100, original_tax_total := 0, tax_lines := some [{ rate := 10 }] }

/-- Witness for C3: the zeroing at a concrete input. -/
theorem c3_free_shipping_zeroes_witness :
    (∃ d ∈ (some [c3wDiscount]).getD [], d.rule.type = DiscountRuleType.free_shipping) ∧
    getShippingMethodTotals fixZeroCalc false c3wMethod true fixEmptyCtx none
      (some [c3wDiscount]) = Except.ok c3wTotals ∧
    c3wTotals.total = 0 ∧ c3wTotals.subtotal = 0 ∧ c3wTotals.tax_total = 0 := by
  have hex : ∃ d ∈ (some [c3wDiscount]).getD [], d.rule.type = DiscountRuleType.free_shipping :=
    ⟨c3wDiscount, by simp, rfl⟩
  have h : getShippingMethodTotals fixZeroCalc false c3wMethod true fixEmptyCtx none
      (some [c3wDiscount]) = Except.ok c3wTotals := by
    simp only [getShippingMethodTotals, fixZeroCalc, c3wMethod, c3wDiscount, c3wTotals]
    norm_num
  exact ⟨hex, h, c3_free_shipping_zeroes fixZeroCalc false c3wMethod true fixEmptyCtx none
    (some [c3wDiscount]) c3wTotals hex h⟩

/-! ## C4: gift-card transaction tax fallback -/

/-- C4: a transaction's tax contribution is its amount times its own
recorded rate, except when `is_taxable` is the unset tri-state value and the
region taxes gift cards, in which case the region's rate applies; in
particular the spec's two concrete instances: an unset transaction of 1000
in a taxing region at rate 10 contributes 100, and an `is_taxable = false`
transaction with no recorded rate contributes 0 regardless of the region. -/
theorem c4_gift_card_transaction_tax :
    (∀ (t : GiftCardTransaction) (region : Region),
        (getGiftCardTransactionsTotals [t] region).tax_total =
          t.amount *
            (if t.is_taxable = none ∧ region.gift_cards_taxable = true then
              region.tax_rate / 100
            else (t.tax_rate.getD 0) / 100)) ∧
    ((getGiftCardTransactionsTotals [{ tax_rate := none, is_taxable := none, amount := 1000 }]
        { gift_cards_taxable := true, tax_rate := 10 }).tax_total = 100) ∧
    (∀ region : Region,
        (getGiftCardTransactionsTotals
          [{ tax_rate := none, is_taxable := some false, amount := 1000 }] region).tax_total =
          0) := by
  refine ⟨?_, ?_, ?_⟩
  · intro t region
    cases ht : t.is_taxable <;> cases hr : region.gift_cards_taxable <;>
      simp [getGiftCardTransactionsTotals, ht, hr]
  · simp [getGiftCardTransactionsTotals]
    norm_num
  · intro region
    simp [getGiftCardTransactionsTotals]

/-! ## C5: refund with per-line rounding -/

/-- C5: for a line item with defined tax lines and no flat rate,
`getLineItemRefund` returns `lineSubtotal + taxTotal`, where `lineSubtotal`
is `(unit_price - embeddedTax) * quantity - discountAmount`, the embedded
tax is backed out with the price/tax helper at the summed tax-line rates
(and is zero when tax-inclusive pricing does not apply), and the tax is the
sum over the tax lines of `round(lineSubtotal * rate/100)`, rounded per line
rather than once on the summed rate. -/
theorem c5_refund_per_line_rounding :
    ∀ (tie : Bool) (li : LineItem) (ctx : TaxCalculationContext) (tls : List TaxLine),
      li.tax_lines = some tls →
      getLineItemRefund tie li ctx none =
        Except.ok
          (let discountAmount :=
            (((assocLookup ctx.allocation_map li.id).bind LineAllocations.discount).map
              DiscountAllocation.unit_amount).getD 0 * li.quantity
          let embeddedTax :=
            if tie && li.includes_tax then
              jsRound (calculatePriceTaxAmount li.unit_price
                ((tls.map (fun l => l.rate / 100)).sum) true)
            else 0
          let lineSubtotal := (li.unit_price - embeddedTax) * li.quantity - discountAmount
          lineSubtotal + (tls.map (fun l => jsRound (lineSubtotal * (l.rate / 100)))).sum) := by
  intro tie li ctx tls h
  cases hit : tie && li.includes_tax <;>
    simp [getLineItemRefund, h, hit, foldl_add_eq]

/-- A concrete line item with two tax lines (10% and 2.5%). -/
def c5wItem : LineItem :=
  { id := "li_5", unit_price := 100, quantity := 2, includes_tax := false
    tax_lines := some [{ rate := 10 }, { rate := 5/2 }] }

/-- Witness for C5: the refund at a concrete input; the per-line rounded
taxes are 20 and 5 on a line subtotal of 200, so the refund is 225. -/
theorem c5_refund_per_line_rounding_witness :
    c5wItem.tax_lines = some [{ rate := 10 }, { rate := 5/2 }] ∧
    getLineItemRefund false c5wItem fixEmptyCtx none = Except.ok 225 :=
  ⟨rfl,
    (c5_refund_per_line_rounding false c5wItem fixEmptyCtx
        [{ rate := 10 }, { rate := 5/2 }] rfl).trans
      (by simp only [c5wItem, fixEmptyCtx, assocLookup, jsRound]; norm_num)⟩

/-! ## C6: gift-card totals without transaction history -/

/-- C6: with no transaction history, `getGiftCardTotals` returns zero totals
when the gift-card list is absent or empty, and otherwise caps the summed
balances at the gift-cardable amount, taxing the capped total at the
region's rate exactly when the region taxes gift cards. -/
theorem c6_gift_card_totals :
    ∀ (gca : ℚ) (region : Region),
      (getGiftCardTotals gca none region none = { total := 0, tax_total := 0 }) ∧
      (getGiftCardTotals gca none region (some []) = { total := 0, tax_total := 0 }) ∧
      (∀ cards : List GiftCard, cards ≠ [] →
        getGiftCardTotals gca none region (some cards) =
          { total := min gca ((cards.map GiftCard.balance).sum)
            tax_total :=
              if region.gift_cards_taxable then
                jsRound (min gca ((cards.map GiftCard.balance).sum) * region.tax_rate / 100)
              else 0 }) := by
  intro gca region
  refine ⟨rfl, rfl, ?_⟩
  intro cards hne
  cases hr : region.gift_cards_taxable <;>
    simp [getGiftCardTotals, hne, hr, foldl_add_eq]

/-- Witness for C6: two cards with balances 50 and 70 against a
gift-cardable amount of 100 in a taxing region at rate 10 yield a capped
total of 100 and a tax of 10. -/
theorem c6_gift_card_totals_witness :
    ([({ balance := 50 } : GiftCard), { balance := 70 }] ≠ ([] : List GiftCard)) ∧
    getGiftCardTotals 100 none { gift_cards_taxable := true, tax_rate := 10 }
      (some [{ balance := 50 }, { balance := 70 }]) = { total := 100, tax_total := 10 } :=
  ⟨by simp,
    ((c6_gift_card_totals 100 { gift_cards_taxable := true, tax_rate := 10 }).2.2
        [{ balance := 50 }, { balance := 70 }] (by simp)).trans
      (by simp only [jsRound]; norm_num)⟩

/-! ## C7: zero discount, zero tax lines -/

/-- A tax-inclusive line item with an explicitly empty tax-line list. -/
def c7CexItem : LineItem :=
  { id := "li_7", unit_price := 100, quantity := 1, includes_tax := true, tax_lines := some [] }

/-- The record the current path returns for `c7CexItem` when the
tax-inclusive-pricing flag is enabled: every monetary field is zero. -/
def c7CexTotals : LineItemTotals :=
  { unit_price := 100, quantity := 1, subtotal := 0, tax_total := 0, total := 0
    original_total := 0, original_tax_total := 0, tax_lines := some [], discount_total := 0 }

/-- C7 counterexample: a line item with zero discount allocation and zero
tax lines for which the current path returns `total = 0`, not
`unit_price * quantity = 100`: with the tax-inclusive-pricing flag enabled
and `includes_tax = true`, the provisional zero subtotal is never corrected
because the tax-line branch is skipped. -/
theorem c7_zero_discount_counterexample :
    ((({ discount := none } : LineAllocations).discount.map
        DiscountAllocation.unit_amount).getD 0 = 0) ∧
    ((none : Option (List TaxLine)).getD (c7CexItem.tax_lines.getD []) = []) ∧
    getLineItemTotals fixZeroCalc true c7CexItem false { discount := none } none fixEmptyCtx =
      Except.ok c7CexTotals ∧
    c7CexTotals.total ≠ c7CexItem.unit_price * c7CexItem.quantity := by
  refine ⟨rfl, rfl, ?_, ?_⟩
  · simp only [getLineItemTotals, fixZeroCalc, c7CexItem, c7CexTotals, fixEmptyCtx]
    norm_num
  · simp only [c7CexTotals, c7CexItem]
    norm_num

/-- C7 (amended): for every line item with zero discount allocation and zero
effective tax lines, and to which tax-inclusive pricing does not apply (flag
disabled or the item not marked `includes_tax`), any returned current-path
record has `total = unit_price * quantity` and `tax_total = 0`. -/
theorem c7_zero_discount_zero_tax_lines :
    ∀ (calculate : TaxCalculationStrategy) (tie : Bool) (item : LineItem)
      (includeTax : Bool) (alloc : LineAllocations) (tlo : Option (List TaxLine))
      (ctx : TaxCalculationContext) (t : LineItemTotals),
      (alloc.discount.map DiscountAllocation.unit_amount).getD 0 = 0 →
      tlo.getD (item.tax_lines.getD []) = [] →
      (tie && item.includes_tax) = false →
      getLineItemTotals calculate tie item includeTax alloc tlo ctx = Except.ok t →
      t.total = item.unit_price * item.quantity ∧ t.tax_total = 0 := by
  intro calculate tie item includeTax alloc tlo ctx t hd hl hit h
  simp only [getLineItemTotals, hd, hl, hit] at h
  split at h
  · exact Except.noConfusion h
  · cases h
    norm_num

/-- A concrete line item with no discount and no tax lines. -/
def c7wItem : LineItem :=
  { id := "li_7w", unit_price := 100, quantity := 3, includes_tax := false, tax_lines := some [] }

/-- The record the current path returns for `c7wItem`. -/
def c7wTotals : LineItemTotals :=
  { unit_price := 100, quantity := 3, subtotal := 300, tax_total := 0, total := 300
    original_total := 300, original_tax_total := 0, tax_lines := some [], discount_total := 0 }

/-- Witness for C7 (amended): the concrete record for `c7wItem` has
`total = 300 = 100 * 3` and `tax_total = 0`. -/
theorem c7_zero_discount_zero_tax_lines_witness :
    ((({ discount := none } : LineAllocations).discount.map
        DiscountAllocation.unit_amount).getD 0 = 0) ∧
    ((none : Option (List TaxLine)).getD (c7wItem.tax_lines.getD []) = []) ∧
    ((false && c7wItem.includes_tax) = false) ∧
    (getLineItemTotals fixZeroCalc false c7wItem false { discount := none } none fixEmptyCtx =
      Except.ok c7wTotals) ∧
    c7wTotals.total = c7wItem.unit_price * c7wItem.quantity ∧ c7wTotals.tax_total = 0 := by
  have h : getLineItemTotals fixZeroCalc false c7wItem false { discount := none } none
      fixEmptyCtx = Except.ok c7wTotals := by
    simp only [getLineItemTotals, fixZeroCalc, c7wItem, c7wTotals, fixEmptyCtx]
    norm_num
  exact ⟨rfl, rfl, rfl, h,
    c7_zero_discount_zero_tax_lines fixZeroCalc false c7wItem false { discount := none }
      none fixEmptyCtx c7wTotals rfl rfl rfl h⟩

/-! ## C8: legacy rounding asymmetry -/

/-- A concrete line item whose legacy tax is fractional. -/
def c8Item : LineItem :=
  { id := "li_8", unit_price := 101, quantity := 1, includes_tax := false, tax_lines := none }

/-- A concrete shipping method with the same price. -/
def c8Method : ShippingMethod :=
  { id := "sm_8", price := 101, includes_tax := false, tax_lines := none }

/-- C8: in the legacy line-item path `original_tax_total` is exactly
`subtotal * rate/100` (no rounding) and `tax_total` is exactly
`(subtotal - discount_total) * rate/100`, each folded into
`original_total`/`total` respectively, while in the legacy shipping path
both tax fields are the rounded `round(price * rate/100)`; at price 101 and
rate 10 the line-item tax stays 10.1 while the shipping tax rounds to 10. -/
theorem c8_legacy_rounding_asymmetry :
    (∀ (tie : Bool) (item : LineItem) (taxRate : ℚ) (alloc : LineAllocations),
        (getLineItemTotalsLegacy tie item taxRate alloc).original_tax_total =
          (getLineItemTotalsLegacy tie item taxRate alloc).subtotal * (taxRate / 100) ∧
        (getLineItemTotalsLegacy tie item taxRate alloc).tax_total =
          ((getLineItemTotalsLegacy tie item taxRate alloc).subtotal -
            (getLineItemTotalsLegacy tie item taxRate alloc).discount_total) * (taxRate / 100) ∧
        (getLineItemTotalsLegacy tie item taxRate alloc).total =
          (getLineItemTotalsLegacy tie item taxRate alloc).subtotal +
            (getLineItemTotalsLegacy tie item taxRate alloc).tax_total ∧
        (getLineItemTotalsLegacy tie item taxRate alloc).original_total =
          (if tie && item.includes_tax then 0 else item.unit_price * item.quantity) +
            (getLineItemTotalsLegacy tie item taxRate alloc).original_tax_total) ∧
    (∀ (sm : ShippingMethod) (taxRate : ℚ),
        (getShippingMethodTotalsLegacy sm taxRate).tax_total =
          jsRound (sm.price * (taxRate / 100)) ∧
        (getShippingMethodTotalsLegacy sm taxRate).original_tax_total =
          jsRound (sm.price * (taxRate / 100))) ∧
    ((getLineItemTotalsLegacy false c8Item 10 { discount := none }).original_tax_total =
      101 / 10) ∧
    ((getShippingMethodTotalsLegacy c8Method 10).tax_total = 10) := by
  refine ⟨?_, ?_, ?_, ?_⟩
  · intro tie item taxRate alloc
    cases hit : tie && item.includes_tax <;> simp [getLineItemTotalsLegacy, hit]
  · intro sm taxRate
    exact ⟨rfl, rfl⟩
  · simp only [getLineItemTotalsLegacy, c8Item]
    norm_num
  · simp only [getShippingMethodTotalsLegacy, c8Method, jsRound]
    norm_num

/-! ## C9: refund on undefined versus empty tax lines -/

/-- C9: `getLineItemRefund` with no flat rate raises the distinct
missing-tax-lines-on-refund error whenever the item's tax-line collection is
structurally undefined, whatever `includes_tax` is, while an explicitly
empty tax-line list is valid and yields a refund of the bare line subtotal
with a zero tax sum. -/
theorem c9_refund_undefined_tax_lines :
    (∀ (tie : Bool) (li : LineItem) (ctx : TaxCalculationContext),
        li.tax_lines = none →
        getLineItemRefund tie li ctx none = Except.error TotalsError.refundTaxLinesMissing) ∧
    (∀ (tie : Bool) (li : LineItem) (ctx : TaxCalculationContext),
        li.tax_lines = some [] →
        getLineItemRefund tie li ctx none =
          Except.ok
            ((li.unit_price -
                (if tie && li.includes_tax then
                  jsRound (calculatePriceTaxAmount li.unit_price 0 true)
                else 0)) * li.quantity -
              (((assocLookup ctx.allocation_map li.id).bind LineAllocations.discount).map
                DiscountAllocation.unit_amount).getD 0 * li.quantity + 0)) := by
  constructor
  · intro tie li ctx h
    simp [getLineItemRefund, h]
  · intro tie li ctx h
    cases hit : tie && li.includes_tax <;> simp [getLineItemRefund, h, hit]

/-- A concrete line item whose tax-line collection was never populated. -/
def c9aItem : LineItem :=
  { id := "li_9a", unit_price := 100, quantity := 2, includes_tax := false, tax_lines := none }

/-- A concrete line item with an explicitly empty tax-line collection. -/
def c9bItem : LineItem :=
  { id := "li_9b", unit_price := 100, quantity := 2, includes_tax := false, tax_lines := some [] }

/-- Witness for C9: the undefined collection errors (with
`includes_tax = false`), the empty collection refunds the line subtotal. -/
theorem c9_refund_undefined_tax_lines_witness :
    (c9aItem.tax_lines = none ∧ c9aItem.includes_tax = false ∧
      getLineItemRefund false c9aItem fixEmptyCtx none =
        Except.error TotalsError.refundTaxLinesMissing) ∧
    (c9bItem.tax_lines = some [] ∧
      getLineItemRefund false c9bItem fixEmptyCtx none = Except.ok 200) :=
  ⟨⟨rfl, rfl, c9_refund_undefined_tax_lines.1 false c9aItem fixEmptyCtx rfl⟩,
    ⟨rfl,
      (c9_refund_undefined_tax_lines.2 false c9bItem fixEmptyCtx rfl).trans
        (by simp only [c9bItem, fixEmptyCtx, assocLookup]; norm_num)⟩⟩

/-! ## C10: legacy/current dispatch at taxRate = 0 -/

/-- C10: the batch entry points treat `taxRate = 0` as falsy, so a zero rate
behaves exactly like an absent rate and both batches use the current
per-tax-line path (shown both by equality with the absent-rate call and, for
line items, by equality with the explicit per-item current-path fold), while
`getLineItemRefund` checks only for null and so dispatches `taxRate = 0` to
the legacy flat-rate refund. -/
theorem c10_dispatch_inconsistency :
    (∀ (calculate : TaxCalculationStrategy) (tie : Bool) (provider : TaxLineProvider)
        (items : List LineItem) (includeTax : Bool) (ctx : TaxCalculationContext) (uet : Bool),
        getLineItemsTotals calculate tie provider items includeTax ctx (some 0) uet =
          getLineItemsTotals calculate tie provider items includeTax ctx none uet) ∧
    (∀ (calculate : TaxCalculationStrategy) (tie : Bool) (provider : TaxLineProvider)
        (sms : List ShippingMethod) (includeTax : Bool) (discounts : Option (List Discount))
        (ctx : TaxCalculationContext) (uet : Bool),
        getShippingMethodsTotals calculate tie provider sms includeTax discounts (some 0) ctx
            uet =
          getShippingMethodsTotals calculate tie provider sms includeTax discounts none ctx
            uet) ∧
    (∀ (calculate : TaxCalculationStrategy) (tie : Bool) (provider : TaxLineProvider)
        (items : List LineItem) (ctx : TaxCalculationContext) (uet : Bool),
        getLineItemsTotals calculate tie provider items false ctx (some 0) uet =
          items.mapM (fun item =>
            (getLineItemTotals calculate tie item false
                ((assocLookup ctx.allocation_map item.id).getD { discount := none })
                none ctx).map (fun t => (item.id, t)))) ∧
    (∀ (tie : Bool) (li : LineItem) (ctx : TaxCalculationContext),
        getLineItemRefund tie li ctx (some 0) =
          Except.ok (getLineItemRefundLegacy tie li ctx 0)) := by
  have hjt : jsTruthy (some 0) = false := by simp [jsTruthy]
  refine ⟨?_, ?_, ?_, ?_⟩
  · intro calculate tie provider items includeTax ctx uet
    simp [getLineItemsTotals, hjt, jsTruthy]
  · intro calculate tie provider sms includeTax discounts ctx uet
    simp [getShippingMethodsTotals, hjt, jsTruthy]
  · intro calculate tie provider items ctx uet
    simp [getLineItemsTotals, hjt, assocLookup]
  · intro tie li ctx
    rfl
